import Mathlib

/-!
Verification of the sessions module of the photo_api repository.

The definitions below are a shallow embedding of `app/sessions/service.py`,
`app/sessions/repository.py`, `app/sessions/models.py`, `app/core/enums.py`
and `app/core/config.py`:

* Python `Decimal` money amounts are modelled as exact rationals (`ℚ`);
  `Decimal` arithmetic on these programs (sums, `* Decimal('0.5')`,
  `* percentage / 100`) is exact, so `ℚ` is faithful.
* Dates and datetimes are modelled as integers (a day / instant count);
  `date.today()` and `get_current_utc_time()` become explicit `today`/`now`
  arguments.
* Database lookups become `Option` arguments (the row found, or `none`),
  and the rows a service method reads or writes (details, payments,
  history, assignments of one session) are passed and returned as lists.
* Raising an exception becomes returning `Except.error`.
-/

namespace PhotoApi

/-- Money: Python `Decimal`, embedded as exact rationals. -/
abbrev Money : Type := ℚ

/-- `app.core.enums.SessionStatus`. -/
inductive SessionStatus
  | request
  | negotiation
  | preScheduled
  | confirmed
  | assigned
  | attended
  | inEditing
  | readyForDelivery
  | completed
  | canceled
deriving DecidableEq, Repr

/-- The `.value` string of each `SessionStatus` member. -/
def SessionStatus.value : SessionStatus → String
  | .request => "Request"
  | .negotiation => "Negotiation"
  | .preScheduled => "Pre-scheduled"
  | .confirmed => "Confirmed"
  | .assigned => "Assigned"
  | .attended => "Attended"
  | .inEditing => "In Editing"
  | .readyForDelivery => "Ready for Delivery"
  | .completed => "Completed"
  | .canceled => "Canceled"

/-- `app.core.enums.Status` (general entity status). -/
inductive Status
  | active
  | inactive
  | maintenance
deriving DecidableEq, Repr

/-- `app.core.enums.SessionType`. -/
inductive SessionType
  | studio
  | external
  | both
deriving DecidableEq, Repr

/-- The `.value` string of each `SessionType` member. -/
def SessionType.value : SessionType → String
  | .studio => "Studio"
  | .external => "External"
  | .both => "Both"

/-- `app.core.enums.PaymentType` (PARTIAL is renamed `partialPayment`). -/
inductive PaymentType
  | deposit
  | balance
  | partialPayment
  | refund
deriving DecidableEq, Repr

/-- `app.core.enums.LineType`. -/
inductive LineType
  | item
  | package
  | adjustment
deriving DecidableEq, Repr

/-- `app.core.enums.ReferenceType`. -/
inductive ReferenceType
  | item
  | package
deriving DecidableEq, Repr

/-- The business-rule fields of `app.core.config.Settings`, with the
defaults of `config.py` (day counts as integers, the deposit percentage
as an exact rational since the code converts it through `Decimal`). -/
structure Settings where
  PAYMENT_DEADLINE_DAYS : Int := 5
  CHANGES_DEADLINE_DAYS : Int := 7
  DEFAULT_EDITING_DAYS : Int := 5
  DEFAULT_DEPOSIT_PERCENTAGE : Money := 50
deriving Repr

/-- The module-level `settings` singleton with all defaults. -/
def defaultSettings : Settings := {}

/-- `app.sessions.models.Session` (the fields the session services read or
write; relationship attributes are modelled as explicit arguments of the
operations instead). -/
structure Session where
  id : Nat
  client_id : Nat
  session_type : SessionType
  session_date : Int
  status : SessionStatus
  total_amount : Money := 0
  deposit_amount : Money := 0
  balance_amount : Money := 0
  paid_amount : Money := 0
  payment_deadline : Option Int := none
  changes_deadline : Option Int := none
  delivery_deadline : Option Int := none
  editing_assigned_to : Option Nat := none
  editing_started_at : Option Int := none
  editing_completed_at : Option Int := none
  delivered_at : Option Int := none
  cancellation_reason : Option String := none
  cancelled_at : Option Int := none
  cancelled_by : Option Nat := none
deriving DecidableEq, Repr

/-- `app.sessions.models.SessionDetail`. -/
structure SessionDetail where
  session_id : Nat
  line_type : LineType
  reference_id : Option Nat := none
  reference_type : Option ReferenceType := none
  item_code : String
  item_name : String
  item_description : Option String := none
  quantity : Nat := 1
  unit_price : Money
  line_subtotal : Money
  created_by : Nat
deriving DecidableEq, Repr

/-- `app.sessions.models.SessionPayment`. -/
structure SessionPayment where
  session_id : Nat
  payment_type : PaymentType
  payment_method : String
  amount : Money
  transaction_reference : Option String := none
  payment_date : Int
  notes : Option String := none
  created_by : Nat
deriving DecidableEq, Repr

/-- `app.sessions.models.SessionPhotographer`. -/
structure SessionPhotographer where
  id : Nat
  session_id : Nat
  photographer_id : Nat
  assigned_by : Nat
  attended : Bool := false
  attended_at : Option Int := none
  notes : Option String := none
deriving DecidableEq, Repr

/-- `app.sessions.models.SessionStatusHistory`; `from_status`/`to_status`
are stored as the enum `.value` strings, as in the model. -/
structure SessionStatusHistory where
  session_id : Nat
  from_status : Option String := none
  to_status : String
  reason : Option String := none
  notes : Option String := none
  changed_by : Nat
deriving DecidableEq, Repr

/-- `app.catalog.models.Item` (the fields the session services read). -/
structure Item where
  id : Nat
  code : String
  name : String
  description : Option String := none
  unit_price : Money
  status : Status
deriving DecidableEq, Repr

/-- `app.catalog.models.PackageItem` with its `item` relationship loaded
(as `selectinload(PackageItem.item)` does in `add_package_to_session`). -/
structure PackageItem where
  package_id : Nat
  item_id : Nat
  quantity : Nat
  item : Item
deriving DecidableEq, Repr

/-- `app.catalog.models.Package` with its member `PackageItem` rows. -/
structure Package where
  id : Nat
  name : String
  session_type : SessionType
  status : Status
  items : List PackageItem
deriving DecidableEq, Repr

/-- The exception classes of `app.core.exceptions` raised by the sessions
services, with the arguments the services pass. -/
inductive ApiError
  | sessionNotFound (session_id : Nat)
  | itemNotFound (item_id : Nat)
  | packageNotFound (package_id : Nat)
  | inactiveResource (message : String)
  | invalidStatusTransition (from_status to_status : String) (allowed : List String)
  | insufficientBalance (session_id : Nat) (required provided : Money)
  | sessionNotEditable (session_id : Nat) (deadline : Int)
  | packageItemsEmpty (package_id : Nat)
  | invalidSessionType (message : String)
deriving DecidableEq, Repr

/-- `app.sessions.schemas.SessionCancellation`; `initiated_by` is a string
validated against the pattern `Client|Studio`. -/
structure SessionCancellation where
  cancellation_reason : String
  initiated_by : String
  notes : Option String := none
deriving DecidableEq, Repr

/-- `app.sessions.schemas.SessionPaymentCreate`. -/
structure SessionPaymentCreate where
  session_id : Nat
  payment_type : PaymentType
  payment_method : String
  amount : Money
  transaction_reference : Option String := none
  payment_date : Int
  notes : Option String := none
deriving DecidableEq, Repr

/-- `SessionService.VALID_TRANSITIONS` (service.py lines 93-129). -/
def VALID_TRANSITIONS : SessionStatus → List SessionStatus
  | .request => [.negotiation, .preScheduled, .canceled]
  | .negotiation => [.preScheduled, .canceled]
  | .preScheduled => [.confirmed, .canceled]
  | .confirmed => [.assigned, .canceled]
  | .assigned => [.attended, .canceled]
  | .attended => [.inEditing, .canceled]
  | .inEditing => [.readyForDelivery, .canceled]
  | .readyForDelivery => [.completed, .canceled]
  | .completed => []
  | .canceled => []

/-- `SessionService._is_valid_transition`:
`to_status in self.VALID_TRANSITIONS.get(from_status, [])`. -/
def _is_valid_transition (from_status to_status : SessionStatus) : Bool :=
  decide (to_status ∈ VALID_TRANSITIONS from_status)

/-- `SessionService._apply_transition_logic` (service.py lines 400-453).
Mutation of the session object becomes returning an updated copy. -/
def _apply_transition_logic (s : Settings) (today now : Int) (session : Session)
    (to_status : SessionStatus) : Except ApiError Session :=
  if to_status = .preScheduled then
    .ok { session with
      payment_deadline := some (today + s.PAYMENT_DEADLINE_DAYS),
      changes_deadline := some (session.session_date - s.CHANGES_DEADLINE_DAYS) }
  else if to_status = .confirmed then
    if session.paid_amount < session.deposit_amount then
      .error (.insufficientBalance session.id
        (session.deposit_amount - session.paid_amount) 0)
    else
      .ok session
  else if to_status = .inEditing then
    .ok { session with
      delivery_deadline := some (today + s.DEFAULT_EDITING_DAYS),
      editing_started_at :=
        if session.editing_started_at = none then some now
        else session.editing_started_at }
  else if to_status = .readyForDelivery then
    .ok { session with
      editing_completed_at :=
        if session.editing_completed_at = none then some now
        else session.editing_completed_at }
  else if to_status = .completed then
    if session.paid_amount < session.total_amount then
      .error (.insufficientBalance session.id
        (session.total_amount - session.paid_amount) 0)
    else
      .ok { session with
        delivered_at :=
          if session.delivered_at = none then some now
          else session.delivered_at }
  else
    .ok session

/-- `SessionService._record_status_change` (service.py lines 455-474):
builds the `SessionStatusHistory` row that is persisted. -/
def _record_status_change (session_id : Nat) (from_status : Option SessionStatus)
    (to_status : SessionStatus) (changed_by : Nat)
    (reason : Option String) (notes : Option String) : SessionStatusHistory :=
  { session_id := session_id,
    from_status := from_status.map SessionStatus.value,
    to_status := to_status.value,
    reason := reason,
    notes := notes,
    changed_by := changed_by }

/-- `SessionService.transition_status` (service.py lines 354-398).
`history` is the session's current status-history table; the appended row
is returned with the updated session. -/
def transition_status (s : Settings) (today now : Int) (session : Session)
    (history : List SessionStatusHistory) (to_status : SessionStatus)
    (changed_by : Nat) (reason : Option String) (notes : Option String) :
    Except ApiError (Session × List SessionStatusHistory) :=
  if _is_valid_transition session.status to_status = false then
    .error (.invalidStatusTransition session.status.value to_status.value
      ((VALID_TRANSITIONS session.status).map SessionStatus.value))
  else
    match _apply_transition_logic s today now session to_status with
    | .error e => .error e
    | .ok updated =>
      -- old_status is read from the session before the status is overwritten
      .ok ({ updated with status := to_status },
        history ++ [_record_status_change session.id (some session.status)
          to_status changed_by reason notes])

/-- `SessionService._calculate_refund` (service.py lines 543-561). -/
def _calculate_refund (session : Session) (initiated_by : String) : Money :=
  if initiated_by = "Studio" then
    session.paid_amount
  else if session.status = .request then
    session.paid_amount
  else if session.status = .negotiation ∨ session.status = .preScheduled then
    session.paid_amount * (1 / 2)
  else
    0

/-- `SessionService.cancel_session` (service.py lines 478-541).
`payments`/`history` are the session's payment and history tables; note
that, as in the source, `session.status` is overwritten with CANCELED
before `_record_status_change` reads it. -/
def cancel_session (today now : Int) (session : Session)
    (payments : List SessionPayment) (history : List SessionStatusHistory)
    (data : SessionCancellation) (cancelled_by : Nat) :
    Except ApiError (Session × List SessionPayment × List SessionStatusHistory) :=
  if session.status = .completed ∨ session.status = .canceled then
    .error (.invalidStatusTransition session.status.value
      SessionStatus.canceled.value [])
  else
    let refund_amount := _calculate_refund session data.initiated_by
    let refund_payment : SessionPayment := {
      session_id := session.id,
      payment_type := .refund,
      payment_method := "Refund",
      amount := refund_amount,
      payment_date := today,
      notes := some ("Refund for cancellation. Initiated by: " ++ data.initiated_by),
      created_by := cancelled_by }
    let payments :=
      if 0 < refund_amount then payments ++ [refund_payment] else payments
    let session := { session with
      status := SessionStatus.canceled,
      cancellation_reason := some data.cancellation_reason,
      cancelled_at := some now,
      cancelled_by := some cancelled_by }
    let row := _record_status_change session.id (some session.status)
      SessionStatus.canceled cancelled_by
      (some ("Canceled by " ++ data.initiated_by ++ ": "
        ++ data.cancellation_reason))
      data.notes
    .ok (session, payments, history ++ [row])

/-- `SessionPaymentRepository.get_total_paid` (repository.py lines 368-381):
sum of the session's payments excluding refunds. -/
def get_total_paid (payments : List SessionPayment) : Money :=
  ((payments.filter (fun p => p.payment_type != PaymentType.refund)).map
    (fun p => p.amount)).sum

/-- `SessionPaymentRepository.get_total_refunded` (repository.py
lines 383-392). -/
def get_total_refunded (payments : List SessionPayment) : Money :=
  ((payments.filter (fun p => p.payment_type == PaymentType.refund)).map
    (fun p => p.amount)).sum

/-- `SessionService.recalculate_totals` (service.py lines 565-605).
`details`/`payments` are the session's detail and payment tables. -/
def recalculate_totals (s : Settings) (session : Session)
    (details : List SessionDetail) (payments : List SessionPayment) : Session :=
  let total := (details.map (fun d => d.line_subtotal)).sum
  let deposit_percentage := s.DEFAULT_DEPOSIT_PERCENTAGE
  let deposit := (total * deposit_percentage) / 100
  let balance := total - deposit
  let paid := get_total_paid payments
  let refunded := get_total_refunded payments
  let net_paid := paid - refunded
  { session with
    total_amount := total,
    deposit_amount := deposit,
    balance_amount := balance,
    paid_amount := net_paid }

/-- `SessionPaymentService.record_payment` (service.py lines 864-916);
the session lookup has already succeeded (the claims consider an existing
session). Returns the updated session and the created payment row. -/
def record_payment (session : Session) (data : SessionPaymentCreate)
    (created_by : Nat) : Except ApiError (Session × SessionPayment) :=
  let remaining_balance := session.total_amount - session.paid_amount
  if remaining_balance < data.amount then
    .error (.insufficientBalance data.session_id remaining_balance data.amount)
  else
    let payment : SessionPayment := {
      session_id := data.session_id,
      payment_type := data.payment_type,
      payment_method := data.payment_method,
      amount := data.amount,
      transaction_reference := data.transaction_reference,
      payment_date := data.payment_date,
      notes := data.notes,
      created_by := created_by }
    let session := { session with paid_amount := session.paid_amount + data.amount }
    let session := { session with
      balance_amount := session.total_amount - session.paid_amount }
    .ok (session, payment)

/-- `if session.changes_deadline and date.today() > session.changes_deadline`,
the editability guard shared by the detail operations. -/
def past_changes_deadline (today : Int) (session : Session) : Bool :=
  match session.changes_deadline with
  | some d => decide (d < today)
  | none => false

/-- `SessionDetailService.add_item_to_session` (service.py lines 693-742).
`session`/`item` are the repository lookups for `session_id`/`item_id`. -/
def add_item_to_session (today : Int) (session_id : Nat)
    (session : Option Session) (item_id : Nat) (item : Option Item)
    (quantity : Nat) (created_by : Nat) : Except ApiError SessionDetail :=
  match session with
  | none => .error (.sessionNotFound session_id)
  | some session =>
    if past_changes_deadline today session then
      .error (.sessionNotEditable session_id (session.changes_deadline.getD 0))
    else
      match item with
      | none => .error (.itemNotFound item_id)
      | some item =>
        if item.status ≠ Status.active then
          .error (.inactiveResource ("Item " ++ item.name ++ " is inactive"))
        else
          .ok {
            session_id := session_id,
            line_type := .item,
            reference_id := some item_id,
            reference_type := some .item,
            item_code := item.code,
            item_name := item.name,
            item_description := item.description,
            quantity := quantity,
            unit_price := item.unit_price,
            line_subtotal := item.unit_price * (quantity : Money),
            created_by := created_by }

/-- `SessionDetailService.add_package_to_session` (service.py
lines 744-826). `session`/`package` are the repository lookups; the
returned list is the created (exploded) detail rows. -/
def add_package_to_session (today : Int) (session_id : Nat)
    (session : Option Session) (package_id : Nat) (package : Option Package)
    (created_by : Nat) : Except ApiError (List SessionDetail) :=
  match session with
  | none => .error (.sessionNotFound session_id)
  | some session =>
    if past_changes_deadline today session then
      .error (.sessionNotEditable session_id (session.changes_deadline.getD 0))
    else
      match package with
      | none => .error (.packageNotFound package_id)
      | some package =>
        if package.status ≠ Status.active then
          .error (.inactiveResource ("Package " ++ package.name ++ " is inactive"))
        else
          let package_items := package.items
          if package_items = [] then
            .error (.packageItemsEmpty package_id)
          else if ¬ (package.session_type = session.session_type ∨
              package.session_type = SessionType.both) then
            .error (.invalidSessionType ("Package " ++ package.name ++ " is for "
              ++ package.session_type.value ++ " sessions, but session is "
              ++ session.session_type.value))
          else
            -- PACKAGE EXPLOSION: one detail per member, inactive items skipped
            .ok (package_items.filterMap (fun package_item =>
              if package_item.item.status ≠ Status.active then none
              else some {
                session_id := session_id,
                line_type := LineType.item,
                reference_id := some package_id,
                reference_type := some ReferenceType.package,
                item_code := package_item.item.code,
                item_name := package_item.item.name,
                item_description := package_item.item.description,
                quantity := package_item.quantity,
                unit_price := package_item.item.unit_price,
                line_subtotal := package_item.item.unit_price
                  * (package_item.quantity : Money),
                created_by := created_by }))

/-- `SessionDetailService.remove_detail` (service.py lines 828-846).
Returns whether a row was deleted (`none` detail is a silent no-op). -/
def remove_detail (today : Int) (detail : Option SessionDetail)
    (session : Option Session) (removed_by : Nat) : Except ApiError Bool :=
  match detail with
  | none => .ok false
  | some detail =>
    match session with
    | some session =>
      if past_changes_deadline today session then
        .error (.sessionNotEditable detail.session_id
          (session.changes_deadline.getD 0))
      else
        .ok true
    | none => .ok true

/-- `SessionPhotographerRepository.mark_attended` (repository.py
lines 506-515). -/
def repo_mark_attended (now : Int) (assignment : SessionPhotographer) :
    SessionPhotographer :=
  { assignment with attended := true, attended_at := some now }

/-- The `if notes: assignment.notes = notes` step of
`SessionPhotographerService.mark_attended`. -/
def apply_notes (assignment : SessionPhotographer) (notes : Option String) :
    SessionPhotographer :=
  match notes with
  | some n => { assignment with notes := some n }
  | none => assignment

/-- `SessionPhotographerService.mark_attended` (service.py lines 994-1031).
`assignment` is the lookup for `assignment_id`; `session` the lookup for
the assignment's session; `session_assignments` are all photographer
assignments of that session, reachable through the repository — the source
never queries them, so the result cannot depend on them. -/
def mark_attended (s : Settings) (today now : Int) (assignment_id : Nat)
    (assignment : Option SessionPhotographer) (session : Option Session)
    (session_assignments : List SessionPhotographer)
    (history : List SessionStatusHistory) (marked_by : Nat)
    (notes : Option String) :
    Except ApiError (SessionPhotographer × Option Session × List SessionStatusHistory) :=
  match assignment with
  | none => .error (.sessionNotFound assignment_id)
  | some assignment =>
    -- `if notes: assignment.notes = notes`
    let assignment := apply_notes assignment notes
    let assignment := repo_mark_attended now assignment
    match session with
    | some session =>
      if session.status = SessionStatus.assigned then
        match transition_status s today now session history
            SessionStatus.attended marked_by
            (some "Photographer marked as attended") notes with
        | .error e => .error e
        | .ok (session2, history2) => .ok (assignment, some session2, history2)
      else
        .ok (assignment, some session, history)
    | none => .ok (assignment, none, history)

/-! Concrete sample rows used to instantiate the theorems. -/

/-- A fresh REQUEST session with all financial fields at their defaults. -/
def baseSession : Session := {
  id := 1,
  client_id := 1,
  session_type := SessionType.studio,
  session_date := 100,
  status := SessionStatus.request }

/-- A deposit payment of 100 against `baseSession`. -/
def paymentOf100 : SessionPayment := {
  session_id := 1,
  payment_type := PaymentType.deposit,
  payment_method := "Cash",
  amount := 100,
  payment_date := 0,
  created_by := 1 }

/-! ## C1 — recalculate_totals -/

/-- C1 counterexample: on a session with no details and one non-refund
payment of 100, `recalculate_totals` leaves `balance_amount = 0` (total
minus deposit) while `total_amount - paid_amount = -100`, so the claimed
`balance = total - net_paid` formula does not hold. -/
theorem recalculate_totals_balance_counterexample :
    (recalculate_totals defaultSettings baseSession [] [paymentOf100]).balance_amount ≠
      (recalculate_totals defaultSettings baseSession [] [paymentOf100]).total_amount -
        (recalculate_totals defaultSettings baseSession [] [paymentOf100]).paid_amount := by
  simp [recalculate_totals, get_total_paid, get_total_refunded, baseSession,
    paymentOf100, defaultSettings]

/-- C1 (amended): `recalculate_totals` writes back
`total = Σ line_subtotal`, `deposit = total × deposit_percentage / 100`,
`paid = Σ non-refund payments − Σ refund payments`, and
`balance = total − deposit` (not `total − net_paid`). -/
theorem recalculate_totals_spec (s : Settings) (session : Session)
    (details : List SessionDetail) (payments : List SessionPayment) :
    (recalculate_totals s session details payments).total_amount =
      (details.map (fun d => d.line_subtotal)).sum ∧
    (recalculate_totals s session details payments).deposit_amount =
      (details.map (fun d => d.line_subtotal)).sum * s.DEFAULT_DEPOSIT_PERCENTAGE / 100 ∧
    (recalculate_totals s session details payments).paid_amount =
      ((payments.filter (fun p => p.payment_type != PaymentType.refund)).map
        (fun p => p.amount)).sum -
      ((payments.filter (fun p => p.payment_type == PaymentType.refund)).map
        (fun p => p.amount)).sum ∧
    (recalculate_totals s session details payments).balance_amount =
      (details.map (fun d => d.line_subtotal)).sum -
      (details.map (fun d => d.line_subtotal)).sum * s.DEFAULT_DEPOSIT_PERCENTAGE / 100 :=
  ⟨rfl, rfl, rfl, rfl⟩

/-! ## C2 — transition_status and the transition table -/

/-- Unfolding lemma for the success path of `transition_status`: when the
transition is in the table and the per-transition logic succeeds, the
status is overwritten and the history row recording the old status is
appended. -/
theorem transition_status_eq_ok (s : Settings) (today now : Int) (session : Session)
    (history : List SessionStatusHistory) (to_status : SessionStatus)
    (changed_by : Nat) (reason notes : Option String) (updated : Session)
    (hvalid : _is_valid_transition session.status to_status = true)
    (happly : _apply_transition_logic s today now session to_status = .ok updated) :
    transition_status s today now session history to_status changed_by reason notes =
      .ok ({ updated with status := to_status },
        history ++ [_record_status_change session.id (some session.status)
          to_status changed_by reason notes]) := by
  unfold transition_status
  rw [hvalid, happly]
  rfl

/-- C2: a transition to a status outside the allowed set raises
InvalidStatusTransition carrying the allowed set; a transition inside the
allowed set whose preconditions hold (deposit covered for CONFIRMED, full
payment for COMPLETED) succeeds, sets the new status, and appends exactly
one history row recording from/to/reason/notes/actor; COMPLETED and
CANCELED allow no outgoing transitions. -/
theorem transition_status_spec (s : Settings) (today now : Int) (session : Session)
    (history : List SessionStatusHistory) (to_status : SessionStatus)
    (changed_by : Nat) (reason notes : Option String) :
    (to_status ∉ VALID_TRANSITIONS session.status →
      transition_status s today now session history to_status changed_by reason notes =
        .error (.invalidStatusTransition session.status.value to_status.value
          ((VALID_TRANSITIONS session.status).map SessionStatus.value))) ∧
    (to_status ∈ VALID_TRANSITIONS session.status →
      (to_status = SessionStatus.confirmed → session.deposit_amount ≤ session.paid_amount) →
      (to_status = SessionStatus.completed → session.total_amount ≤ session.paid_amount) →
      ∃ updated : Session,
        transition_status s today now session history to_status changed_by reason notes =
          .ok (updated, history ++ [{
            session_id := session.id,
            from_status := some session.status.value,
            to_status := to_status.value,
            reason := reason, notes := notes, changed_by := changed_by }]) ∧
        updated.status = to_status) ∧
    VALID_TRANSITIONS SessionStatus.completed = [] ∧
    VALID_TRANSITIONS SessionStatus.canceled = [] := by
  refine ⟨?_, ?_, rfl, rfl⟩
  · intro hmem
    simp [transition_status, _is_valid_transition, hmem]
  · intro hmem hconf hcomp
    have hvalid : _is_valid_transition session.status to_status = true := by
      simp [_is_valid_transition, hmem]
    cases to_status
    case confirmed =>
      have happly : _apply_transition_logic s today now session
          SessionStatus.confirmed = .ok session := by
        unfold _apply_transition_logic
        rw [if_neg (not_lt.mpr (hconf rfl))]
        rfl
      exact ⟨_, transition_status_eq_ok s today now session history _
        changed_by reason notes _ hvalid happly, rfl⟩
    case completed =>
      have happly : _apply_transition_logic s today now session
          SessionStatus.completed =
          .ok { session with delivered_at := if session.delivered_at = none then some now else session.delivered_at } := by
        unfold _apply_transition_logic
        rw [if_neg (not_lt.mpr (hcomp rfl))]
        rfl
      exact ⟨_, transition_status_eq_ok s today now session history _
        changed_by reason notes _ hvalid happly, rfl⟩
    all_goals exact ⟨_, transition_status_eq_ok s today now session history _
      changed_by reason notes _ hvalid rfl, rfl⟩

/-- C2 witness: from the concrete REQUEST session, a jump to COMPLETED is
rejected with the allowed set, and the allowed move to NEGOTIATION
succeeds and appends the single history row. -/
theorem transition_status_spec_witness :
    (transition_status defaultSettings 0 0 baseSession [] SessionStatus.completed 1 none none =
      .error (.invalidStatusTransition "Request" "Completed"
        ["Negotiation", "Pre-scheduled", "Canceled"])) ∧
    (∃ updated : Session,
      transition_status defaultSettings 0 0 baseSession [] SessionStatus.negotiation 1 none none =
        .ok (updated, [] ++ [{
          session_id := baseSession.id,
          from_status := some "Request", to_status := "Negotiation",
          reason := none, notes := none, changed_by := 1 }]) ∧
      updated.status = SessionStatus.negotiation) := by
  constructor
  · exact (transition_status_spec defaultSettings 0 0 baseSession []
      SessionStatus.completed 1 none none).1 (by decide)
  · exact (transition_status_spec defaultSettings 0 0 baseSession []
      SessionStatus.negotiation 1 none none).2.1 (by decide)
      (fun h => SessionStatus.noConfusion h) (fun h => SessionStatus.noConfusion h)

/-! ## C10 — the PRE_SCHEDULED transition side effects -/

/-- C10: a transition into PRE_SCHEDULED (only reachable from REQUEST or
NEGOTIATION) sets `payment_deadline = today + PAYMENT_DEADLINE_DAYS` and
`changes_deadline = session_date - CHANGES_DEADLINE_DAYS` and changes
nothing else on the session besides the status (in particular no financial
field); the configured defaults are 5 and 7 days. -/
theorem transition_to_pre_scheduled_spec (s : Settings) (today now : Int)
    (session : Session) (history : List SessionStatusHistory)
    (changed_by : Nat) (reason notes : Option String)
    (h : session.status = SessionStatus.request ∨
      session.status = SessionStatus.negotiation) :
    transition_status s today now session history SessionStatus.preScheduled
        changed_by reason notes =
      .ok ({ session with
          status := SessionStatus.preScheduled,
          payment_deadline := some (today + s.PAYMENT_DEADLINE_DAYS),
          changes_deadline := some (session.session_date - s.CHANGES_DEADLINE_DAYS) },
        history ++ [{
          session_id := session.id,
          from_status := some session.status.value,
          to_status := "Pre-scheduled",
          reason := reason, notes := notes, changed_by := changed_by }]) ∧
    defaultSettings.PAYMENT_DEADLINE_DAYS = 5 ∧
    defaultSettings.CHANGES_DEADLINE_DAYS = 7 := by
  refine ⟨transition_status_eq_ok s today now session history
    SessionStatus.preScheduled changed_by reason notes _ ?_ rfl, rfl, rfl⟩
  rcases h with h | h <;> simp [_is_valid_transition, h, VALID_TRANSITIONS]

/-- C10 witness: the concrete REQUEST session transitioned to
PRE_SCHEDULED on day 10 gets payment_deadline 10+5 and changes_deadline
100-7, with every other field untouched. -/
theorem transition_to_pre_scheduled_spec_witness :
    transition_status defaultSettings 10 0 baseSession [] SessionStatus.preScheduled
        2 none none =
      .ok ({ baseSession with
          status := SessionStatus.preScheduled,
          payment_deadline := some (10 + defaultSettings.PAYMENT_DEADLINE_DAYS),
          changes_deadline :=
            some (baseSession.session_date - defaultSettings.CHANGES_DEADLINE_DAYS) },
        [] ++ [{
          session_id := baseSession.id,
          from_status := some baseSession.status.value,
          to_status := "Pre-scheduled",
          reason := none, notes := none, changed_by := 2 }]) ∧
    defaultSettings.PAYMENT_DEADLINE_DAYS = 5 ∧
    defaultSettings.CHANGES_DEADLINE_DAYS = 7 :=
  transition_to_pre_scheduled_spec defaultSettings 10 0 baseSession [] 2 none none
    (Or.inl rfl)

/-! ## C4 — the from_status recorded by cancel_session -/

/-- C4 (the code evaluated at the failing input): cancelling the concrete
REQUEST session records a history row with `from_status = "Canceled"`,
not the pre-cancellation status `"Request"` — `cancel_session` overwrites
`session.status` with CANCELED before `_record_status_change` reads it. -/
theorem cancel_session_from_status_bug :
    ∃ sess pays,
      cancel_session 0 0 baseSession [] []
          { cancellation_reason := "changed plans", initiated_by := "Studio" } 9 =
        .ok (sess, pays, [{
          session_id := 1,
          from_status := some "Canceled",
          to_status := "Canceled",
          reason := some "Canceled by Studio: changed plans",
          notes := none,
          changed_by := 9 }]) := by
  refine ⟨{ baseSession with
      status := SessionStatus.canceled,
      cancellation_reason := some "changed plans",
      cancelled_at := some 0, cancelled_by := some 9 }, [], ?_⟩
  rfl

/-! ## C5 — the refund matrix -/

/-- C5: for a cancellation from a non-terminal status, the refund is the
full paid amount when initiated by Studio (any status); when initiated by
Client it is the full amount in REQUEST, half in NEGOTIATION or
PRE_SCHEDULED, and zero in CONFIRMED or any later status; and whenever
the refund is positive, cancel_session appends exactly one payment of
type Refund with that amount, method "Refund" and date today. -/
theorem cancel_session_refund_spec (today now : Int) (session : Session)
    (payments : List SessionPayment) (history : List SessionStatusHistory)
    (data : SessionCancellation) (cancelled_by : Nat)
    (hterm : session.status ≠ SessionStatus.completed ∧
      session.status ≠ SessionStatus.canceled) :
    (data.initiated_by = "Studio" →
      _calculate_refund session data.initiated_by = session.paid_amount) ∧
    (data.initiated_by = "Client" → session.status = SessionStatus.request →
      _calculate_refund session data.initiated_by = session.paid_amount) ∧
    (data.initiated_by = "Client" →
      (session.status = SessionStatus.negotiation ∨
        session.status = SessionStatus.preScheduled) →
      _calculate_refund session data.initiated_by = session.paid_amount * (1 / 2)) ∧
    (data.initiated_by = "Client" →
      (session.status = SessionStatus.confirmed ∨
        session.status = SessionStatus.assigned ∨
        session.status = SessionStatus.attended ∨
        session.status = SessionStatus.inEditing ∨
        session.status = SessionStatus.readyForDelivery) →
      _calculate_refund session data.initiated_by = 0) ∧
    (0 < _calculate_refund session data.initiated_by →
      ∃ sess hist,
        cancel_session today now session payments history data cancelled_by =
          .ok (sess, payments ++ [{
            session_id := session.id,
            payment_type := PaymentType.refund,
            payment_method := "Refund",
            amount := _calculate_refund session data.initiated_by,
            payment_date := today,
            notes := some ("Refund for cancellation. Initiated by: "
              ++ data.initiated_by),
            created_by := cancelled_by }], hist)) := by
  have hng : ¬ (session.status = SessionStatus.completed ∨
      session.status = SessionStatus.canceled) := by
    rintro (h | h)
    exacts [hterm.1 h, hterm.2 h]
  refine ⟨?_, ?_, ?_, ?_, ?_⟩
  · intro h
    simp [_calculate_refund, h]
  · intro hc hs
    simp [_calculate_refund, hc, hs]
  · intro hc hs
    rcases hs with hs | hs <;> simp [_calculate_refund, hc, hs]
  · intro hc hs
    rcases hs with hs | hs | hs | hs | hs <;> simp [_calculate_refund, hc, hs]
  · intro hpos
    refine ⟨{ session with
        status := SessionStatus.canceled,
        cancellation_reason := some data.cancellation_reason,
        cancelled_at := some now, cancelled_by := some cancelled_by },
      history ++ [{
        session_id := session.id,
        from_status := some "Canceled",
        to_status := "Canceled",
        reason := some ("Canceled by " ++ data.initiated_by ++ ": "
          ++ data.cancellation_reason),
        notes := data.notes,
        changed_by := cancelled_by }], ?_⟩
    simp only [cancel_session, if_neg hng, if_pos hpos]
    rfl

/-! ## C6 — record_payment -/

/-- Unfolding lemma for the success path of `record_payment`: within the
remaining balance, the payment row is created and the session's
paid/balance fields are updated. -/
theorem record_payment_eq_ok (session : Session) (data : SessionPaymentCreate)
    (created_by : Nat)
    (h : data.amount ≤ session.total_amount - session.paid_amount) :
    record_payment session data created_by =
      .ok ({ session with
          paid_amount := session.paid_amount + data.amount,
          balance_amount :=
            session.total_amount - (session.paid_amount + data.amount) },
        { session_id := data.session_id,
          payment_type := data.payment_type,
          payment_method := data.payment_method,
          amount := data.amount,
          transaction_reference := data.transaction_reference,
          payment_date := data.payment_date,
          notes := data.notes,
          created_by := created_by }) := by
  unfold record_payment
  rw [if_neg (not_lt.mpr h)]

/-- C6: record_payment fails with InsufficientBalance exactly when the
amount exceeds total_amount minus paid_amount (returning only the error,
so the session is unchanged); otherwise it creates the payment row,
increments paid_amount by the amount, and sets balance_amount to
total_amount minus the new paid_amount. -/
theorem record_payment_spec (session : Session) (data : SessionPaymentCreate)
    (created_by : Nat) :
    (session.total_amount - session.paid_amount < data.amount →
      record_payment session data created_by =
        .error (.insufficientBalance data.session_id
          (session.total_amount - session.paid_amount) data.amount)) ∧
    (data.amount ≤ session.total_amount - session.paid_amount →
      record_payment session data created_by =
        .ok ({ session with
            paid_amount := session.paid_amount + data.amount,
            balance_amount :=
              session.total_amount - (session.paid_amount + data.amount) },
          { session_id := data.session_id,
            payment_type := data.payment_type,
            payment_method := data.payment_method,
            amount := data.amount,
            transaction_reference := data.transaction_reference,
            payment_date := data.payment_date,
            notes := data.notes,
            created_by := created_by })) := by
  constructor
  · intro h
    unfold record_payment
    rw [if_pos h]
  · intro h
    exact record_payment_eq_ok session data created_by h

/-- C6 witness: on a session with total 200 and nothing paid, a payment
of 300 is rejected with the remaining balance, and a payment of 120
succeeds, leaving paid_amount 120 and balance_amount 80. -/
theorem record_payment_spec_witness :
    (record_payment { baseSession with total_amount := 200 }
        { session_id := 1, payment_type := PaymentType.deposit,
          payment_method := "Cash", amount := 300, payment_date := 0 } 4 =
      .error (.insufficientBalance 1
        ((200 : Money) - 0) 300)) ∧
    (record_payment { baseSession with total_amount := 200 }
        { session_id := 1, payment_type := PaymentType.deposit,
          payment_method := "Cash", amount := 120, payment_date := 0 } 4 =
      .ok ({ baseSession with
          total_amount := 200,
          paid_amount := (0 : Money) + 120,
          balance_amount := (200 : Money) - (0 + 120) },
        { session_id := 1, payment_type := PaymentType.deposit,
          payment_method := "Cash", amount := 120,
          transaction_reference := none, payment_date := 0,
          notes := none, created_by := 4 })) := by
  constructor
  · exact (record_payment_spec { baseSession with total_amount := 200 }
      { session_id := 1, payment_type := PaymentType.deposit,
        payment_method := "Cash", amount := 300, payment_date := 0 } 4).1
      (by norm_num [baseSession])
  · exact (record_payment_spec { baseSession with total_amount := 200 }
      { session_id := 1, payment_type := PaymentType.deposit,
        payment_method := "Cash", amount := 120, payment_date := 0 } 4).2
      (by norm_num [baseSession])

/-- A PRE_SCHEDULED session with 1000 paid (the spec's refund example). -/
def paidPreScheduled : Session := { baseSession with
  status := SessionStatus.preScheduled, paid_amount := 1000 }

/-- C5 witness: with 1000 paid in PRE_SCHEDULED and the Client
cancelling, the refund is 1000 × 1/2, and a Refund payment row for that
amount, method "Refund" and date today is appended. -/
theorem cancel_session_refund_spec_witness :
    (_calculate_refund paidPreScheduled "Client" =
      paidPreScheduled.paid_amount * (1 / 2)) ∧
    (∃ sess hist,
      cancel_session 3 0 paidPreScheduled [] []
          { cancellation_reason := "r", initiated_by := "Client" } 5 =
        .ok (sess, [] ++ [{
          session_id := paidPreScheduled.id,
          payment_type := PaymentType.refund,
          payment_method := "Refund",
          amount := _calculate_refund paidPreScheduled "Client",
          payment_date := 3,
          notes := some ("Refund for cancellation. Initiated by: " ++ "Client"),
          created_by := 5 }], hist)) := by
  have h := cancel_session_refund_spec 3 0 paidPreScheduled [] []
    { cancellation_reason := "r", initiated_by := "Client" } 5
    ⟨by decide, by decide⟩
  refine ⟨h.2.2.1 rfl (Or.inr rfl), h.2.2.2.2 ?_⟩
  unfold _calculate_refund
  split_ifs with h1 h2 h3
  · norm_num [paidPreScheduled, baseSession]
  · norm_num [paidPreScheduled, baseSession]
  · norm_num [paidPreScheduled, baseSession]
  · exact absurd (Or.inr rfl) h3

/-! ## C3 — mark_attended and the auto-transition to ATTENDED -/

/-- The ASSIGNED variant of the sample session. -/
def assignedSession : Session := { baseSession with
  status := SessionStatus.assigned }

/-- A photographer assignment on session 1, not yet attended. -/
def assignmentOne : SessionPhotographer := {
  id := 1, session_id := 1, photographer_id := 21, assigned_by := 2 }

/-- A second photographer assignment on session 1, not yet attended. -/
def assignmentTwo : SessionPhotographer := {
  id := 2, session_id := 1, photographer_id := 22, assigned_by := 2 }

/-- C3 counterexample: the ASSIGNED session has two photographer
assignments and the second one has attended = false, yet marking only the
first one attended already auto-transitions the session to ATTENDED —
`mark_attended` never loads the other assignments, it only checks
`session.status == ASSIGNED`. -/
theorem mark_attended_counterexample :
    assignmentTwo.attended = false ∧
    assignmentTwo.session_id = assignedSession.id ∧
    (mark_attended defaultSettings 0 0 1 (some assignmentOne)
        (some assignedSession) [assignmentOne, assignmentTwo] [] 7 none).map
      (fun r => r.2.1.map (fun sess => sess.status)) =
      .ok (some SessionStatus.attended) :=
  ⟨rfl, rfl, rfl⟩

/-- C3 (amended): mark_attended sets attended = true (with the timestamp,
and the notes when provided) on the one assignment, and auto-invokes the
transition to ATTENDED exactly when the session's status is ASSIGNED —
for every value of the session's other photographer assignments, whose
attended flags are never consulted; when the status is not ASSIGNED the
session and history are returned unchanged. -/
theorem mark_attended_spec (s : Settings) (today now : Int) (assignment_id : Nat)
    (assignment : SessionPhotographer) (session : Session)
    (session_assignments : List SessionPhotographer)
    (history : List SessionStatusHistory) (marked_by : Nat)
    (notes : Option String) :
    (session.status = SessionStatus.assigned →
      mark_attended s today now assignment_id (some assignment) (some session)
          session_assignments history marked_by notes =
        .ok (repo_mark_attended now (apply_notes assignment notes),
          some { session with status := SessionStatus.attended },
          history ++ [{
            session_id := session.id,
            from_status := some session.status.value,
            to_status := "Attended",
            reason := some "Photographer marked as attended",
            notes := notes,
            changed_by := marked_by }])) ∧
    (session.status ≠ SessionStatus.assigned →
      mark_attended s today now assignment_id (some assignment) (some session)
          session_assignments history marked_by notes =
        .ok (repo_mark_attended now (apply_notes assignment notes),
          some session, history)) := by
  constructor
  · intro h
    have hvalid : _is_valid_transition session.status SessionStatus.attended = true := by
      rw [h]; rfl
    have htrans := transition_status_eq_ok s today now session history
      SessionStatus.attended marked_by (some "Photographer marked as attended")
      notes session hvalid rfl
    simp only [mark_attended]
    rw [if_pos h, htrans]
    rfl
  · intro h
    simp only [mark_attended]
    rw [if_neg h]

/-- C3 witness: marking the first assignment of the ASSIGNED session
attended transitions it to ATTENDED even with a second assignment in the
list, and marking an assignment of the REQUEST session leaves the session
unchanged. -/
theorem mark_attended_spec_witness :
    (mark_attended defaultSettings 0 0 1 (some assignmentOne)
        (some assignedSession) [assignmentOne, assignmentTwo] [] 7 none =
      .ok (repo_mark_attended 0 (apply_notes assignmentOne none),
        some { assignedSession with status := SessionStatus.attended },
        [] ++ [{
          session_id := assignedSession.id,
          from_status := some assignedSession.status.value,
          to_status := "Attended",
          reason := some "Photographer marked as attended",
          notes := none,
          changed_by := 7 }])) ∧
    (mark_attended defaultSettings 0 0 1 (some assignmentOne)
        (some baseSession) [assignmentOne] [] 7 none =
      .ok (repo_mark_attended 0 (apply_notes assignmentOne none),
        some baseSession, [])) := by
  constructor
  · exact (mark_attended_spec defaultSettings 0 0 1 assignmentOne assignedSession
      [assignmentOne, assignmentTwo] [] 7 none).1 rfl
  · exact (mark_attended_spec defaultSettings 0 0 1 assignmentOne baseSession
      [assignmentOne] [] 7 none).2 (by decide)

/-! ## C7 / C8 / C9 — detail operations and package explosion -/

/-- Unfolding lemma for the success path of `add_package_to_session`: with
an editable session, an Active non-empty package of compatible type, the
call returns one exploded detail row per Active member item. -/
theorem add_package_eq_ok (today : Int) (session : Session) (package : Package)
    (created_by : Nat)
    (hdl : past_changes_deadline today session = false)
    (hact : package.status = Status.active)
    (hne : package.items ≠ [])
    (hty : package.session_type = session.session_type ∨
      package.session_type = SessionType.both) :
    add_package_to_session today session.id (some session) package.id
        (some package) created_by =
      .ok (package.items.filterMap (fun package_item =>
        if package_item.item.status ≠ Status.active then none
        else some {
          session_id := session.id,
          line_type := LineType.item,
          reference_id := some package.id,
          reference_type := some ReferenceType.package,
          item_code := package_item.item.code,
          item_name := package_item.item.name,
          item_description := package_item.item.description,
          quantity := package_item.quantity,
          unit_price := package_item.item.unit_price,
          line_subtotal := package_item.item.unit_price
            * (package_item.quantity : Money),
          created_by := created_by })) := by
  simp only [add_package_to_session]
  rw [hdl, if_neg (fun hh => Bool.noConfusion hh), if_neg (fun hh => hh hact),
    if_neg hne, if_neg (not_not_intro hty)]

/-- Unfolding lemma for the success path of `add_item_to_session`: with an
editable session and an Active item, one detail row snapshotting the
item's current price is created. -/
theorem add_item_eq_ok (today : Int) (session : Session) (item : Item)
    (item_id quantity created_by : Nat)
    (hdl : past_changes_deadline today session = false)
    (hact : item.status = Status.active) :
    add_item_to_session today session.id (some session) item_id (some item)
        quantity created_by =
      .ok {
        session_id := session.id,
        line_type := LineType.item,
        reference_id := some item_id,
        reference_type := some ReferenceType.item,
        item_code := item.code,
        item_name := item.name,
        item_description := item.description,
        quantity := quantity,
        unit_price := item.unit_price,
        line_subtotal := item.unit_price * (quantity : Money),
        created_by := created_by } := by
  simp only [add_item_to_session]
  rw [hdl, if_neg (fun hh => Bool.noConfusion hh), if_neg (fun hh => hh hact)]

/-- A CANCELED session with a non-zero total and nothing paid. -/
def canceledRich : Session := { baseSession with
  status := SessionStatus.canceled, total_amount := 100 }

/-- An Inactive catalog item. -/
def inactiveItem : Item := {
  id := 5, code := "IT5", name := "Old Print", unit_price := 30,
  status := Status.inactive }

/-- An Active catalog item priced 40. -/
def activeItemA : Item := {
  id := 11, code := "ITA", name := "Digital Photo", unit_price := 40,
  status := Status.active }

/-- An Active catalog item priced 60. -/
def activeItemB : Item := {
  id := 12, code := "ITB", name := "Album", unit_price := 60,
  status := Status.active }

/-- An Active Studio package with two Active members and one Inactive one. -/
def mixedPackage : Package := {
  id := 9, name := "Mixed", session_type := SessionType.studio,
  status := Status.active,
  items := [
    { package_id := 9, item_id := 11, quantity := 2, item := activeItemA },
    { package_id := 9, item_id := 5, quantity := 1, item := inactiveItem },
    { package_id := 9, item_id := 12, quantity := 3, item := activeItemB }] }

/-- An existing detail row of session 1. -/
def sampleDetail : SessionDetail := {
  session_id := 1, line_type := LineType.item, item_code := "ITA",
  item_name := "Digital Photo", quantity := 1, unit_price := 40,
  line_subtotal := 40, created_by := 3 }

/-- C7 counterexample: record_payment never checks the session's status —
a payment of 50 against the CANCELED session with total 100 and nothing
paid succeeds and mutates paid_amount and balance_amount, contradicting
the claim that every financial mutation fails on a terminal session. -/
theorem terminal_sessions_mutable_counterexample :
    canceledRich.status = SessionStatus.canceled ∧
    record_payment canceledRich
        { session_id := 1, payment_type := PaymentType.deposit,
          payment_method := "Cash", amount := 50, payment_date := 0 } 3 =
      .ok ({ canceledRich with
          paid_amount := (0 : Money) + 50,
          balance_amount := (100 : Money) - (0 + 50) },
        { session_id := 1, payment_type := PaymentType.deposit,
          payment_method := "Cash", amount := 50,
          transaction_reference := none, payment_date := 0, notes := none,
          created_by := 3 }) := by
  refine ⟨rfl, ?_⟩
  have hle : (50 : Money) ≤ canceledRich.total_amount - canceledRich.paid_amount := by
    norm_num [canceledRich, baseSession]
  exact record_payment_eq_ok canceledRich
    { session_id := 1, payment_type := PaymentType.deposit,
      payment_method := "Cash", amount := 50, payment_date := 0 } 3 hle

/-- C7 (amended): none of record_payment, add_item_to_session,
add_package_to_session, remove_detail inspects the session's status: on a
COMPLETED or CANCELED session each still succeeds — and mutates the
financial fields or line items — whenever its other guards pass (amount
within the remaining balance; changes_deadline not lapsed; Active
item/package; compatible session type). -/
theorem terminal_status_not_guarded (today : Int) (session : Session)
    (data : SessionPaymentCreate) (created_by : Nat) (item : Item)
    (item_id : Nat) (quantity : Nat) (package : Package)
    (detail : SessionDetail)
    (hterm : session.status = SessionStatus.completed ∨
      session.status = SessionStatus.canceled) :
    (data.amount ≤ session.total_amount - session.paid_amount →
      ∃ sess pay, record_payment session data created_by = .ok (sess, pay) ∧
        sess.paid_amount = session.paid_amount + data.amount) ∧
    (past_changes_deadline today session = false → item.status = Status.active →
      ∃ d, add_item_to_session today session.id (some session) item_id
        (some item) quantity created_by = .ok d) ∧
    (past_changes_deadline today session = false →
      package.status = Status.active → package.items ≠ [] →
      (package.session_type = session.session_type ∨
        package.session_type = SessionType.both) →
      ∃ ds, add_package_to_session today session.id (some session) package.id
        (some package) created_by = .ok ds) ∧
    (past_changes_deadline today session = false →
      remove_detail today (some detail) (some session) created_by = .ok true) := by
  refine ⟨?_, ?_, ?_, ?_⟩
  · intro h
    exact ⟨_, _, record_payment_eq_ok session data created_by h, rfl⟩
  · intro hdl hact
    exact ⟨_, add_item_eq_ok today session item item_id quantity created_by hdl hact⟩
  · intro hdl hact hne hty
    exact ⟨_, add_package_eq_ok today session package created_by hdl hact hne hty⟩
  · intro hdl
    simp only [remove_detail]
    rw [hdl, if_neg (fun hh => Bool.noConfusion hh)]

/-- C7 witness: on the CANCELED session, a payment of 50 succeeds and
raises paid_amount, an Active item and an Active compatible package can
still be added, and an existing detail can still be removed. -/
theorem terminal_status_not_guarded_witness :
    (∃ sess pay, record_payment canceledRich
        { session_id := 1, payment_type := PaymentType.deposit,
          payment_method := "Cash", amount := 50, payment_date := 0 } 3 =
        .ok (sess, pay) ∧
      sess.paid_amount = canceledRich.paid_amount + 50) ∧
    (∃ d, add_item_to_session 0 canceledRich.id (some canceledRich) 11
      (some activeItemA) 2 3 = .ok d) ∧
    (∃ ds, add_package_to_session 0 canceledRich.id (some canceledRich)
      mixedPackage.id (some mixedPackage) 3 = .ok ds) ∧
    (remove_detail 0 (some sampleDetail) (some canceledRich) 3 = .ok true) := by
  have h := terminal_status_not_guarded 0 canceledRich
    { session_id := 1, payment_type := PaymentType.deposit,
      payment_method := "Cash", amount := 50, payment_date := 0 } 3
    activeItemA 11 2 mixedPackage sampleDetail (Or.inr rfl)
  exact ⟨h.1 (by norm_num [canceledRich, baseSession]), h.2.1 rfl rfl,
    h.2.2.1 rfl rfl (by decide) (Or.inl rfl), h.2.2.2 rfl⟩

/-- An Active package with member rows whose items are all Inactive. -/
def allInactivePackage : Package := {
  id := 7, name := "Old Pack", session_type := SessionType.both,
  status := Status.active,
  items := [{ package_id := 7, item_id := 5, quantity := 2, item := inactiveItem }] }

/-- An Active package with no member rows at all. -/
def emptyPackage : Package := {
  id := 8, name := "Empty Pack", session_type := SessionType.both,
  status := Status.active, items := [] }

/-- C8 counterexample: the active package whose single member item is
Inactive has member rows, yet adding it to the editable REQUEST session
does NOT raise PackageItemsEmptyException — it succeeds with zero created
details, contradicting the claim that the exception is also raised when
zero addable items remain after filtering. -/
theorem add_package_all_inactive_counterexample :
    allInactivePackage.items ≠ [] ∧
    add_package_to_session 0 baseSession.id (some baseSession)
      allInactivePackage.id (some allInactivePackage) 3 = .ok [] :=
  ⟨by decide, rfl⟩

/-- C8 (amended): on an editable session with an Active package,
PackageItemsEmptyException is raised exactly when the package has no
member rows at all; when member rows exist but every member item is
individually Inactive, no exception is raised — the call succeeds and
creates zero SessionDetail rows. -/
theorem add_package_empty_spec (today : Int) (session : Session)
    (package : Package) (created_by : Nat)
    (hdl : past_changes_deadline today session = false)
    (hact : package.status = Status.active) :
    (package.items = [] →
      add_package_to_session today session.id (some session) package.id
        (some package) created_by = .error (.packageItemsEmpty package.id)) ∧
    ((package.session_type = session.session_type ∨
        package.session_type = SessionType.both) →
      (∀ member ∈ package.items, member.item.status ≠ Status.active) →
      package.items ≠ [] →
      add_package_to_session today session.id (some session) package.id
        (some package) created_by = .ok []) := by
  constructor
  · intro he
    simp only [add_package_to_session]
    rw [hdl, if_neg (fun hh => Bool.noConfusion hh), if_neg (fun hh => hh hact),
      if_pos he]
  · intro hty hall hne
    rw [add_package_eq_ok today session package created_by hdl hact hne hty]
    congr 1
    rw [List.filterMap_eq_nil_iff]
    intro member hm
    rw [if_pos (hall member hm)]

/-- C8 witness: the member-less package is rejected with
PackageItemsEmptyException, while the all-Inactive-members package is
accepted with zero rows created. -/
theorem add_package_empty_spec_witness :
    (add_package_to_session 0 baseSession.id (some baseSession) emptyPackage.id
      (some emptyPackage) 3 = .error (.packageItemsEmpty emptyPackage.id)) ∧
    (add_package_to_session 0 baseSession.id (some baseSession)
      allInactivePackage.id (some allInactivePackage) 3 = .ok []) := by
  constructor
  · exact (add_package_empty_spec 0 baseSession emptyPackage 3 rfl rfl).1 rfl
  · exact (add_package_empty_spec 0 baseSession allInactivePackage 3 rfl rfl).2
      (Or.inr rfl) (by decide) (by decide)

/-- The package-explosion guard `if item.status ≠ Active then skip` is a
filter on Active members followed by a map. -/
theorem explosion_filterMap_eq {β : Type} (g : PackageItem → β)
    (l : List PackageItem) :
    l.filterMap (fun m => if m.item.status ≠ Status.active then none
        else some (g m)) =
      (l.filter (fun m => m.item.status == Status.active)).map g := by
  induction l with
  | nil => rfl
  | cons a l ih =>
    simp only [ne_eq, ite_not] at ih ⊢
    by_cases h : a.item.status = Status.active <;>
      simp [List.filterMap_cons, List.filter_cons, h, ih]

/-- C9: adding a non-empty Active package of compatible type to an
editable session creates exactly one SessionDetail per Active member item
(N rows for N active members), each priced with that member item's own
current unit_price, the member's quantity, and
line_subtotal = unit_price × quantity; the result depends only on the
package, so a second identical call yields the same N rows again and
appending both to any existing details gives 2 × N additional rows — no
deduplication. -/
theorem add_package_explosion_spec (today : Int) (session : Session)
    (package : Package) (created_by : Nat)
    (hdl : past_changes_deadline today session = false)
    (hact : package.status = Status.active)
    (hne : package.items ≠ [])
    (hty : package.session_type = session.session_type ∨
      package.session_type = SessionType.both) :
    ∃ ds, add_package_to_session today session.id (some session) package.id
        (some package) created_by = .ok ds ∧
      ds = (package.items.filter
          (fun member => member.item.status == Status.active)).map
        (fun member => ({
          session_id := session.id,
          line_type := LineType.item,
          reference_id := some package.id,
          reference_type := some ReferenceType.package,
          item_code := member.item.code,
          item_name := member.item.name,
          item_description := member.item.description,
          quantity := member.quantity,
          unit_price := member.item.unit_price,
          line_subtotal := member.item.unit_price * (member.quantity : Money),
          created_by := created_by } : SessionDetail)) ∧
      ds.length = (package.items.filter
        (fun member => member.item.status == Status.active)).length ∧
      (∀ d ∈ ds, d.line_subtotal = d.unit_price * (d.quantity : Money)) ∧
      (∀ existing : List SessionDetail,
        (existing ++ ds ++ ds).length = existing.length + 2 * ds.length) := by
  refine ⟨_, add_package_eq_ok today session package created_by hdl hact hne hty,
    explosion_filterMap_eq _ package.items, ?_, ?_, ?_⟩
  · rw [explosion_filterMap_eq _ package.items, List.length_map]
  · intro d hd
    rw [explosion_filterMap_eq _ package.items] at hd
    obtain ⟨member, hmem, hEq⟩ := List.mem_map.mp hd
    rw [← hEq]
  · intro existing
    simp [List.length_append]
    omega

/-- C9 witness: the mixed package (two Active members priced 40 and 60,
one Inactive member) explodes into exactly its two Active rows, with the
stated lengths and subtotal equations. -/
theorem add_package_explosion_spec_witness :
    ∃ ds, add_package_to_session 0 baseSession.id (some baseSession)
        mixedPackage.id (some mixedPackage) 3 = .ok ds ∧
      ds = (mixedPackage.items.filter
          (fun member => member.item.status == Status.active)).map
        (fun member => ({
          session_id := baseSession.id,
          line_type := LineType.item,
          reference_id := some mixedPackage.id,
          reference_type := some ReferenceType.package,
          item_code := member.item.code,
          item_name := member.item.name,
          item_description := member.item.description,
          quantity := member.quantity,
          unit_price := member.item.unit_price,
          line_subtotal := member.item.unit_price * (member.quantity : Money),
          created_by := 3 } : SessionDetail)) ∧
      ds.length = (mixedPackage.items.filter
        (fun member => member.item.status == Status.active)).length ∧
      (∀ d ∈ ds, d.line_subtotal = d.unit_price * (d.quantity : Money)) ∧
      (∀ existing : List SessionDetail,
        (existing ++ ds ++ ds).length = existing.length + 2 * ds.length) :=
  add_package_explosion_spec 0 baseSession mixedPackage 3 rfl rfl
    (by decide) (Or.inl rfl)

end PhotoApi
